import Mathlib

/-!
Shallow embedding of the conversation lifecycle and background summarization
engine of the chat_api service (src/services/chat_api: crud.py, main.py,
summarization_service.py, agents.py, with the table models from database.py).

Modelling conventions:
- Timestamps are integers (minutes since an arbitrary epoch); the 15-minute
  inactivity window of the source therefore appears as the literal 15.
- Database identifiers (uuid in the source) are natural numbers.
- JSONB payloads are modelled only as far as the verified code paths inspect
  them: a message content is either a dict carrying an optional "text" key or
  a non-dict payload; a stored token_usage value is SQL NULL, a non-dict JSON
  value, or a dict of three optional integer counters.
- Python truthiness and the expression x or 0 on optional integers are
  modelled by pyOr0; the Python str() rendering of non-text payloads and the
  strftime date rendering are abstracted by total functions whose exact output
  no verified claim depends on.
- Each SQLAlchemy query is translated clause by clause: filter corresponds to
  List.filter, order_by ascending to List.insertionSort on created_at, limit
  to List.take, func.max to List.max?.
- The async session is modelled by a Session record holding the last committed
  database state and the current working view; commit copies the view into the
  committed state, rollback restores the view from it.
- The generation capability (agents.py) catches every exception internally and
  always returns a text together with a hard-coded all-zero usage dict and the
  configured model name; the text itself is abstracted by a function parameter.
-/

namespace Chatbot

/-- Three-counter cumulative token usage record as written back by
increment_conversation_token_usage and reported by the agents. -/
structure Usage where
  prompt_tokens : Int
  completion_tokens : Int
  total_tokens : Int
deriving Repr, DecidableEq

/-- Stored JSON usage object: each of the three keys may be absent or null,
which the source reads through dict.get(key, 0) or 0. -/
structure UsageDict where
  prompt_tokens : Option Int
  completion_tokens : Option Int
  total_tokens : Option Int
deriving Repr, DecidableEq

/-- Value of the token_usage JSONB column as fetched by
increment_conversation_token_usage: SQL NULL (or no row), a JSON value that is
not a dict, or a dict of optional counters. -/
inductive TokenUsageVal where
  | null : TokenUsageVal
  | notDict : TokenUsageVal
  | record : UsageDict → TokenUsageVal
deriving Repr, DecidableEq

/-- Message content JSONB payload, modelled as far as the code inspects it:
either a dict with an optional "text" entry, or a non-dict payload (for which
content.get would raise AttributeError in the source). -/
inductive Content where
  | obj : Option String → Content
  | str : String → Content
deriving Repr, DecidableEq

/-- Row of chatbot_conversation_audit (database.py). -/
structure Conversation where
  conversation_id : Nat
  user_id : Nat
  title : Option String
  conversation_summary : Option String
  model : Option String
  token_usage : TokenUsageVal
  status : String
  last_message_at : Option Int
  created_at : Int
  archived : Bool
deriving Repr, DecidableEq

/-- Row of chatbot_user_memory (database.py); the uuid primary key is never
inspected by the verified code paths and is omitted. -/
structure Message where
  conversation_id : Nat
  user_id : Nat
  role : String
  content : Content
  created_at : Int
deriving Repr, DecidableEq

/-- Database state: the two tables the lifecycle engine touches. -/
structure DB where
  conversations : List Conversation
  messages : List Message
deriving Repr, DecidableEq

/-- Async session state: last committed database plus the current working
view holding uncommitted changes. -/
structure Session where
  committed : DB
  view : DB
deriving Repr, DecidableEq

/-- Commit copies the working view into the durable state (db.commit). -/
def Session.commit (s : Session) : Session := ⟨s.view, s.view⟩

/-- Rollback discards the working view (db.rollback). -/
def Session.rollback (s : Session) : Session := ⟨s.committed, s.committed⟩

/-- Python expression int(x or 0) for an optional integer field: a missing or
null field counts as zero, any present integer is taken as is. -/
def pyOr0 : Option Int → Int
  | none => 0
  | some n => n

/-- All-zero usage dict used by the source when the stored record is missing
or not a dict. -/
def zeroUsageDict : UsageDict := ⟨some 0, some 0, some 0⟩

/-- Usage dict actually written back: all three keys present. -/
def usageToDict (u : Usage) : UsageDict :=
  ⟨some u.prompt_tokens, some u.completion_tokens, some u.total_tokens⟩

/-- Hard-coded zero usage returned by every agent call (agents.py). -/
def zeroUsage : Usage := ⟨0, 0, 0⟩

/-- Backend model name: settings.vertex_model_name or "gemini-2.5-pro"; a
non-empty string in every configuration. -/
def modelName : String := "gemini-2.5-pro"

/-- Default limit=20 of get_message_history (crud.py line 141), applied at
every call site relevant to the verified claims. -/
def default_history_limit : Nat := 20

/-- Abstraction of created_at.strftime of the source; no verified claim
depends on the exact date rendering. -/
def fmtDate (t : Int) : String := toString t

/-- Abstraction of the Python str() rendering of a whole content payload (the
default branch of content.get); no verified claim depends on its exact form. -/
def pyStr : Content → String
  | .obj none => "dict-without-text"
  | .obj (some t) => "dict-text " ++ t
  | .str s => s

/-- Python rendering of an optional summary inside an f-string: None prints
as the four-letter string None. -/
def pyOptStr : Option String → String
  | none => "None"
  | some s => s

/-- Expression msg.content.get(&quot;text&quot;, str(msg.content)) of
summarization_service.py line 125 and main.py line 487: on a dict it returns
the text entry or the str() rendering, on a non-dict payload it raises
AttributeError, modelled as Except.error. -/
def getText : Content → Except String String
  | .obj (some t) => .ok t
  | .obj none => .ok (pyStr (.obj none))
  | .str _ => .error "AttributeError: content has no attribute get"

/-- Lookup of a conversation row by primary key. -/
def lookupConv (db : DB) (cid : Nat) : Option Conversation :=
  db.conversations.find? (fun c => c.conversation_id == cid)

/-- UPDATE ... WHERE conversation_id = cid applied to the conversations
table; rows with other ids are untouched. -/
def updateConv (db : DB) (cid : Nat) (g : Conversation → Conversation) : DB :=
  ⟨db.conversations.map (fun c => if c.conversation_id == cid then g c else c),
   db.messages⟩

/-- Ordering of messages by creation time, the order_by of
get_message_history. -/
def msgLE (a b : Message) : Prop := a.created_at ≤ b.created_at

instance : DecidableRel msgLE :=
  fun a b => inferInstanceAs (Decidable (a.created_at ≤ b.created_at))

instance : IsTotal Message msgLE := ⟨fun a b => Int.le_total a.created_at b.created_at⟩

instance : IsTrans Message msgLE := ⟨fun _ _ _ h h2 => Int.le_trans h h2⟩

/-- Ordering of conversations by creation time, the order_by of
get_cumulative_summary_context. -/
def convLE (a b : Conversation) : Prop := a.created_at ≤ b.created_at

instance : DecidableRel convLE :=
  fun a b => inferInstanceAs (Decidable (a.created_at ≤ b.created_at))

instance : IsTotal Conversation convLE := ⟨fun a b => Int.le_total a.created_at b.created_at⟩

instance : IsTrans Conversation convLE := ⟨fun _ _ _ h h2 => Int.le_trans h h2⟩

/-- crud.get_conversation: fetch by conversation id and owning user id. -/
def get_conversation (db : DB) (cid uid : Nat) : Option Conversation :=
  db.conversations.find? (fun c => c.conversation_id == cid && c.user_id == uid)

/-- crud.create_conversation: insert a fresh row with status in-progress and
otherwise column defaults (database.py). -/
def create_conversation (db : DB) (uid : Nat) (title : Option String)
    (new_cid : Nat) (now : Int) : DB × Conversation :=
  let conv : Conversation :=
    ⟨new_cid, uid, title, none, none, .null, "in-progress", none, now, false⟩
  (⟨db.conversations ++ [conv], db.messages⟩, conv)

/-- crud.update_conversation_timestamp: set last_message_at to now. -/
def update_conversation_timestamp (db : DB) (cid : Nat) (now : Int) : DB :=
  updateConv db cid (fun c => { c with last_message_at := some now })

/-- crud.get_message_history: messages of the conversation ordered by
created_at ascending, limited to the first limit rows. -/
def get_message_history (db : DB) (cid : Nat) (limit : Nat) : List Message :=
  ((db.messages.filter (fun m => m.conversation_id == cid)).insertionSort msgLE).take limit

/-- crud.save_message: append a message row; created_at defaults to now. -/
def save_message (db : DB) (cid uid : Nat) (role : String) (content : Content)
    (now : Int) : DB :=
  ⟨db.conversations, db.messages ++ [⟨cid, uid, role, content, now⟩]⟩

/-- Conditional write of the model column shared by
update_conversation_summary and increment_conversation_token_usage: the
source only includes the model in the update when the argument is truthy,
that is a non-empty string. -/
def applyModel (model : Option String) (c : Conversation) : Conversation :=
  match model with
  | some m => if m = "" then c else { c with model := some m }
  | none => c

/-- Conditional write of the token_usage column in
update_conversation_summary: included only when a dict is provided (a
provided dict carries three keys and is always truthy). -/
def applyUsage (token_usage : Option Usage) (c : Conversation) : Conversation :=
  match token_usage with
  | some u => { c with token_usage := .record (usageToDict u) }
  | none => c

/-- crud.update_conversation_summary: always writes the summary, then the
model and the usage dict only when truthy. -/
def update_conversation_summary (db : DB) (cid : Nat) (summary : String)
    (model : Option String) (token_usage : Option Usage) : DB :=
  updateConv db cid (fun c =>
    applyUsage token_usage (applyModel model { c with conversation_summary := some summary }))

/-- Core arithmetic of crud.increment_conversation_token_usage: a stored
value that is not a dict is reset to the all-zero dict, then the three
counters are added field-wise with missing or null fields as zero. -/
def addUsage (current : TokenUsageVal) (delta : UsageDict) : Usage :=
  let cur : UsageDict := match current with
    | .record u => u
    | _ => zeroUsageDict
  ⟨pyOr0 cur.prompt_tokens + pyOr0 delta.prompt_tokens,
   pyOr0 cur.completion_tokens + pyOr0 delta.completion_tokens,
   pyOr0 cur.total_tokens + pyOr0 delta.total_tokens⟩

/-- Fetch of the current usage value at the top of
increment_conversation_token_usage: scalar_one_or_none reads SQL NULL both
for a null column and for a missing row. -/
def currentUsage (db : DB) (cid : Nat) : TokenUsageVal :=
  match lookupConv db cid with
  | some c => c.token_usage
  | none => .null

/-- crud.increment_conversation_token_usage: fetch the current usage, add
the deltas field-wise, write back the combined record, and the model name
when truthy. -/
def increment_conversation_token_usage (db : DB) (cid : Nat)
    (usage_delta : UsageDict) (model : Option String) : DB :=
  updateConv db cid (fun c =>
    applyModel model
      { c with token_usage :=
          .record (usageToDict (addUsage (currentUsage db cid) usage_delta)) })

/-- crud.update_conversation_status: validate against the three recognized
statuses, raising ValueError otherwise, then write the status. -/
def update_conversation_status (db : DB) (cid : Nat) (new_status : String) :
    Except String DB :=
  if new_status = "active" ∨ new_status = "in-progress" ∨ new_status = "archived" then
    .ok (updateConv db cid (fun c => { c with status := new_status }))
  else
    .error "ValueError: Invalid status"

/-- crud.get_conversations_to_archive: status active or in-progress,
last_message_at strictly older than now minus 15 minutes (an SQL NULL
last_message_at fails the comparison and is excluded), and no summary yet. -/
def get_conversations_to_archive (db : DB) (now : Int) : List Conversation :=
  db.conversations.filter (fun c =>
    (c.status == "active" || c.status == "in-progress")
    && (match c.last_message_at with
        | some t => t < now - 15
        | none => false)
    && c.conversation_summary.isNone)

/-- Last message time of a user: func.max over created_at of all message rows
of that user, regardless of role (crud.py lines 295-299). -/
def last_message_time (db : DB) (uid : Nat) : Option Int :=
  ((db.messages.filter (fun m => m.user_id == uid)).map (fun m => m.created_at)).max?

/-- crud.get_conversations_to_summarize_by_user_inactivity: when the user has
no messages at all or the last one is older than 15 minutes, all of the
users unsummarized active or in-progress conversations; otherwise none. -/
def get_conversations_to_summarize_by_user_inactivity (db : DB) (uid : Nat)
    (now : Int) : List Conversation :=
  match last_message_time db uid with
  | none =>
      db.conversations.filter (fun c =>
        c.user_id == uid && c.conversation_summary.isNone
        && (c.status == "active" || c.status == "in-progress"))
  | some t =>
      if t < now - 15 then
        db.conversations.filter (fun c =>
          c.user_id == uid && c.conversation_summary.isNone
          && (c.status == "active" || c.status == "in-progress"))
      else []

/-- Result record of crud.get_user_inactivity_status. -/
structure InactivityStatus where
  last_time : Option Int
  is_inactive : Bool
  inactivity_duration : Option Int
  active_conversations : Nat
  conversations_to_summarize : Nat
  should_summarize : Bool
deriving Repr, DecidableEq

/-- crud.get_user_inactivity_status: a read-only query over the two tables;
the last-activity time ranges over all messages of the user, of any role. -/
def get_user_inactivity_status (db : DB) (uid : Nat) (now : Int) : InactivityStatus :=
  let lt := last_message_time db uid
  let active := db.conversations.filter (fun c =>
    c.user_id == uid && (c.status == "active" || c.status == "in-progress"))
  let is_inactive := match lt with
    | none => true
    | some t => decide (t < now - 15)
  let to_summarize := get_conversations_to_summarize_by_user_inactivity db uid now
  ⟨lt,
   is_inactive,
   lt.map (fun t => now - t),
   active.length,
   to_summarize.length,
   decide (0 < to_summarize.length)⟩

/-- Sentinel returned by the cumulative context builder for a user with no
matching conversations. -/
def noHistorySentinel : String := "No previous conversation history available."

/-- Numbered line per conversation of the cumulative context, crud.py line
447: Conversation i (from date): summary, with a null summary rendered the
way a Python f-string renders None. -/
def contextLine (i : Nat) (c : Conversation) : String :=
  "Conversation " ++ toString i ++ " (from " ++ fmtDate c.created_at ++ "): "
    ++ pyOptStr c.conversation_summary

/-- Numbered context lines, counting from 1. -/
def contextLines : Nat → List Conversation → List String
  | _, [] => []
  | i, c :: rest => contextLine i c :: contextLines (i + 1) rest

/-- crud.get_cumulative_summary_context. NOTE on line 433 of the source: the
second where-clause is the plain Python expression
conversation_summary is not None on the column object, which evaluates to
the constant True and is coerced by SQLAlchemy to the SQL literal true; the
summary filter is therefore a no-op and every conversation of the user
matches, summarized or not. The embedding reproduces this faithfully. -/
def get_cumulative_summary_context (db : DB) (uid : Nat) : String :=
  let conversations :=
    (db.conversations.filter (fun c => c.user_id == uid)).insertionSort convLE
  if conversations.isEmpty then
    noHistorySentinel
  else
    let parts :=
      ("User has had " ++ toString conversations.length
        ++ " previous conversations. Here\x27s the cumulative memory:")
      :: contextLines 1 conversations
      ++ ["This is conversation #" ++ toString (conversations.length + 1)
            ++ " for this user. Use the above context to provide personalized, continuous care."]
    String.intercalate "\n\n" parts

/-- Formatted message passed to an agent: role plus extracted text. -/
structure FMsg where
  role : String
  content : String
deriving Repr, DecidableEq

/-- Formatting loop of summarization_service.py lines 124-127 and main.py
lines 484-490: extract the text of every message, raising on the first
non-dict payload. -/
def formatMessages : List Message → Except String (List FMsg)
  | [] => .ok []
  | m :: rest =>
    match getText m.content with
    | .error e => .error e
    | .ok t =>
      match formatMessages rest with
      | .error e => .error e
      | .ok ts => .ok (FMsg.mk m.role t :: ts)

/-- agents.summarizer_agent: the whole body is wrapped in a try/except that
falls back to a fixed text, so the call never raises; it always returns a
hard-coded all-zero usage dict and the configured model name. The generated
text is abstracted by the function parameter f. -/
def summarizer_agent (f : List FMsg → String → String) (history : List FMsg)
    (cumulative_context : String) : String × Usage × String :=
  (f history cumulative_context, zeroUsage, modelName)

/-- agents.core_chat_agent: same never-raising shape as the summarizer; the
reply text is abstracted by the parameter reply. -/
def core_chat_agent (reply : String) (_history : List FMsg) (_user_message : String)
    (_cumulative_context : String) : String × Usage × String :=
  (reply, zeroUsage, modelName)

/-- SummarizationService.summarize_conversation: fetch the capped ordered
history; with fewer than 2 messages archive and commit (the short-circuit
branch); otherwise build the cumulative context, format the transcript, call
the summarizer, persist summary, model and usage, and commit. Any raise
inside the body rolls the session back and re-raises. -/
def summarize_conversation (f : List FMsg → String → String) (s : Session)
    (conv : Conversation) : Except String Unit × Session :=
  if (get_message_history s.view conv.conversation_id default_history_limit).length < 2 then
    match update_conversation_status s.view conv.conversation_id "archived" with
    | .ok db2 => (.ok (), Session.commit ⟨s.committed, db2⟩)
    | .error e => (.error e, s.rollback)
  else
    match formatMessages
        (get_message_history s.view conv.conversation_id default_history_limit) with
    | .error e => (.error e, s.rollback)
    | .ok formatted =>
      match summarizer_agent f formatted
          (get_cumulative_summary_context s.view conv.user_id) with
      | (summary, usage, mname) =>
        (.ok (), Session.commit
          ⟨s.committed,
           update_conversation_summary s.view conv.conversation_id summary
             (some mname) (some usage)⟩)

/-- Per-conversation loop of SummarizationService.process_pending_summaries:
archive on the shared session without committing, then summarize; a raise is
counted as a failure and the loop continues with the next conversation.
Returns the final session with the success and failure counts. -/
def processConversations (f : List FMsg → String → String) :
    Session → List Conversation → Session × Nat × Nat
  | s, [] => (s, 0, 0)
  | s, conv :: rest =>
    match update_conversation_status s.view conv.conversation_id "archived" with
    | .error _ =>
        ((processConversations f s rest).1,
         (processConversations f s rest).2.1,
         (processConversations f s rest).2.2 + 1)
    | .ok db2 =>
      match summarize_conversation f ⟨s.committed, db2⟩ conv with
      | (.ok _, s2) =>
          ((processConversations f s2 rest).1,
           (processConversations f s2 rest).2.1 + 1,
           (processConversations f s2 rest).2.2)
      | (.error _, s2) =>
          ((processConversations f s2 rest).1,
           (processConversations f s2 rest).2.1,
           (processConversations f s2 rest).2.2 + 1)

/-- SummarizationService.process_pending_summaries: one scheduler tick over a
fresh session, driven by the global archival-eligibility query. -/
def process_pending_summaries (f : List FMsg → String → String) (db : DB)
    (now : Int) : Session × Nat × Nat :=
  processConversations f ⟨db, db⟩ (get_conversations_to_archive db now)

/-- Request-path chat endpoint (main.py lines 455-522), success and error
paths: a missing conversation id is a 400, an unknown conversation a 404, a
raise during history formatting rolls back leaving the database unchanged;
on success both turn messages are saved with dict text payloads, the
timestamp is bumped, the status is set to in-progress unconditionally, the
usage counters are incremented, and the transaction commits. The agent reply
text is abstracted by the parameter reply. -/
def chat (reply : String) (db : DB) (uid : Nat) (conversation_id : Option Nat)
    (user_message : String) (now : Int) : Except String DB :=
  match conversation_id with
  | none => .error "400: conversation_id is required"
  | some cid =>
    match get_conversation db cid uid with
    | none => .error "404: Conversation not found"
    | some _ =>
      match formatMessages (get_message_history db cid default_history_limit) with
      | .error e => .error e
      | .ok formatted =>
        match core_chat_agent reply formatted user_message
            (get_cumulative_summary_context db uid) with
        | (ai_response, usage, mname) =>
          match update_conversation_status
              (update_conversation_timestamp
                (save_message
                  (save_message db cid uid "user" (.obj (some user_message)) now)
                  cid uid "assistant" (.obj (some ai_response)) now)
                cid now)
              cid "in-progress" with
          | .error e => .error e
          | .ok db4 =>
            .ok (increment_conversation_token_usage db4 cid (usageToDict usage) (some mname))

/-- Request-path start-conversation endpoint (main.py lines 388-450), success
path: generate a greeting (agents never raise; text abstracted by the
parameter greeting), create the conversation titled with the first 60
characters, set it active, save the greeting as an assistant message with a
dict text payload, bump the timestamp, record usage, and commit. -/
def start_conversation (greeting : String) (db : DB) (uid : Nat) (new_cid : Nat)
    (now : Int) : Except String DB :=
  match update_conversation_status
      (create_conversation db uid (some (greeting.take 60)) new_cid now).1
      new_cid "active" with
  | .error e => .error e
  | .ok db2 =>
    .ok (increment_conversation_token_usage
          (update_conversation_timestamp
            (save_message db2 new_cid uid "assistant" (.obj (some greeting)) now)
            new_cid now)
          new_cid (usageToDict zeroUsage) (some modelName))

/-- Invariant of the request path: every stored message content is a dict
carrying a text entry. -/
def WellFormedMessages (db : DB) : Prop :=
  ∀ m ∈ db.messages, ∃ t, m.content = Content.obj (some t)

/-! Helper lemmas shared by the claim theorems. -/

theorem messages_updateConv (db : DB) (cid : Nat) (g : Conversation → Conversation) :
    (updateConv db cid g).messages = db.messages := rfl

theorem get_message_history_updateConv (db : DB) (cid : Nat)
    (g : Conversation → Conversation) (cid2 : Nat) (n : Nat) :
    get_message_history (updateConv db cid g) cid2 n = get_message_history db cid2 n := rfl

theorem find?_map_update_other {cid x : Nat} {g : Conversation → Conversation}
    (hg : ∀ c, (g c).conversation_id = c.conversation_id) (hx : x ≠ cid) :
    ∀ l : List Conversation,
      (l.map (fun c => if c.conversation_id == cid then g c else c)).find?
          (fun c => c.conversation_id == x) =
        l.find? (fun c => c.conversation_id == x) := by
  intro l
  induction l with
  | nil => rfl
  | cons c rest ih =>
    by_cases hc : c.conversation_id = cid
    · have h1 : (c.conversation_id == cid) = true := beq_iff_eq.mpr hc
      have h3 : (c.conversation_id == x) = false := by
        rw [beq_eq_false_iff_ne, hc]
        exact Ne.symm hx
      have h2 : ((g c).conversation_id == x) = false := by rw [hg c]; exact h3
      rw [List.map_cons, if_pos h1, List.find?_cons_of_neg _ (by simp [h2]),
        List.find?_cons_of_neg _ (by simp [h3])]
      exact ih
    · have h1 : (c.conversation_id == cid) = false := beq_eq_false_iff_ne.mpr hc
      rw [List.map_cons, if_neg (by simp [h1])]
      by_cases hcx : c.conversation_id = x
      · have h3 : (c.conversation_id == x) = true := beq_iff_eq.mpr hcx
        rw [@List.find?_cons_of_pos _ (fun c => c.conversation_id == x) c _ h3,
          @List.find?_cons_of_pos _ (fun c => c.conversation_id == x) c _ h3]
      · have h3 : (c.conversation_id == x) = false := beq_eq_false_iff_ne.mpr hcx
        rw [List.find?_cons_of_neg _ (by simp [h3]), List.find?_cons_of_neg _ (by simp [h3])]
        exact ih

theorem lookupConv_updateConv_other {db : DB} {cid x : Nat}
    {g : Conversation → Conversation}
    (hg : ∀ c, (g c).conversation_id = c.conversation_id) (hx : x ≠ cid) :
    lookupConv (updateConv db cid g) x = lookupConv db x :=
  find?_map_update_other hg hx db.conversations

theorem find?_map_update_self {cid : Nat} {g : Conversation → Conversation}
    (hg : ∀ c, (g c).conversation_id = c.conversation_id) :
    ∀ l : List Conversation,
      (l.map (fun c => if c.conversation_id == cid then g c else c)).find?
          (fun c => c.conversation_id == cid) =
        (l.find? (fun c => c.conversation_id == cid)).map g := by
  intro l
  induction l with
  | nil => rfl
  | cons c rest ih =>
    by_cases hc : c.conversation_id = cid
    · have h1 : (c.conversation_id == cid) = true := beq_iff_eq.mpr hc
      have h2 : ((g c).conversation_id == cid) = true := by rw [hg c]; exact h1
      rw [List.map_cons, if_pos h1,
        @List.find?_cons_of_pos _ (fun c => c.conversation_id == cid) (g c) _ h2,
        @List.find?_cons_of_pos _ (fun c => c.conversation_id == cid) c _ h1]
      rfl
    · have h1 : (c.conversation_id == cid) = false := beq_eq_false_iff_ne.mpr hc
      rw [List.map_cons, if_neg (by simp [h1]), List.find?_cons_of_neg _ (by simp [h1]),
        List.find?_cons_of_neg _ (by simp [h1])]
      exact ih

theorem lookupConv_updateConv_self {db : DB} {cid : Nat}
    {g : Conversation → Conversation}
    (hg : ∀ c, (g c).conversation_id = c.conversation_id) :
    lookupConv (updateConv db cid g) cid = (lookupConv db cid).map g :=
  find?_map_update_self hg db.conversations

theorem update_status_archived_eq (db : DB) (cid : Nat) :
    update_conversation_status db cid "archived" =
      .ok (updateConv db cid (fun c => { c with status := "archived" })) := by
  unfold update_conversation_status
  rw [if_pos]
  exact Or.inr (Or.inr rfl)

theorem update_status_active_eq (db : DB) (cid : Nat) :
    update_conversation_status db cid "active" =
      .ok (updateConv db cid (fun c => { c with status := "active" })) := by
  unfold update_conversation_status
  rw [if_pos]
  exact Or.inl rfl

theorem update_status_in_progress_eq (db : DB) (cid : Nat) :
    update_conversation_status db cid "in-progress" =
      .ok (updateConv db cid (fun c => { c with status := "in-progress" })) := by
  unfold update_conversation_status
  rw [if_pos]
  exact Or.inr (Or.inl rfl)

theorem formatMessages_ok_of_forall {l : List Message}
    (h : ∀ m ∈ l, ∃ t, m.content = Content.obj (some t)) :
    ∃ fl, formatMessages l = .ok fl := by
  induction l with
  | nil => exact ⟨[], rfl⟩
  | cons m rest ih =>
    obtain ⟨t, ht⟩ := h m (List.mem_cons_self m rest)
    obtain ⟨fl, hfl⟩ := ih (fun x hx => h x (List.mem_cons_of_mem m hx))
    exact ⟨FMsg.mk m.role t :: fl, by simp [formatMessages, ht, getText, hfl]⟩

theorem formatMessages_error_of_mem {l : List Message} {m : Message} {s : String}
    (hm : m ∈ l) (hc : m.content = Content.str s) :
    ∃ e, formatMessages l = .error e := by
  induction l with
  | nil => cases hm
  | cons a rest ih =>
    rcases List.mem_cons.mp hm with h | h
    · subst h
      exact ⟨"AttributeError: content has no attribute get",
        by simp [formatMessages, hc, getText]⟩
    · obtain ⟨e, he⟩ := ih h
      cases hgt : getText a.content with
      | error e2 => exact ⟨e2, by simp [formatMessages, hgt]⟩
      | ok t => exact ⟨e, by simp [formatMessages, hgt, he]⟩

theorem summarize_conversation_short {f : List FMsg → String → String} {s : Session}
    {conv : Conversation}
    (h : (get_message_history s.view conv.conversation_id default_history_limit).length < 2) :
    summarize_conversation f s conv =
      (.ok (),
        ⟨updateConv s.view conv.conversation_id (fun c => { c with status := "archived" }),
         updateConv s.view conv.conversation_id (fun c => { c with status := "archived" })⟩) := by
  unfold summarize_conversation
  rw [if_pos h, update_status_archived_eq]
  rfl

theorem summarize_conversation_fmt_error {f : List FMsg → String → String} {s : Session}
    {conv : Conversation} {e : String}
    (h : ¬ (get_message_history s.view conv.conversation_id default_history_limit).length < 2)
    (hfmt : formatMessages
      (get_message_history s.view conv.conversation_id default_history_limit) = .error e) :
    summarize_conversation f s conv = (.error e, ⟨s.committed, s.committed⟩) := by
  unfold summarize_conversation
  rw [if_neg h, hfmt]
  rfl

theorem summarize_conversation_long {f : List FMsg → String → String} {s : Session}
    {conv : Conversation} {l : List FMsg}
    (h : ¬ (get_message_history s.view conv.conversation_id default_history_limit).length < 2)
    (hfmt : formatMessages
      (get_message_history s.view conv.conversation_id default_history_limit) = .ok l) :
    summarize_conversation f s conv =
      (.ok (),
        ⟨update_conversation_summary s.view conv.conversation_id
           (f l (get_cumulative_summary_context s.view conv.user_id))
           (some modelName) (some zeroUsage),
         update_conversation_summary s.view conv.conversation_id
           (f l (get_cumulative_summary_context s.view conv.user_id))
           (some modelName) (some zeroUsage)⟩) := by
  unfold summarize_conversation
  rw [if_neg h, hfmt]
  rfl

theorem summarize_conversation_error_rollback {f : List FMsg → String → String}
    {s : Session} {conv : Conversation} {e : String}
    (h : (summarize_conversation f s conv).1 = .error e) :
    (summarize_conversation f s conv).2 = ⟨s.committed, s.committed⟩ := by
  by_cases hlen :
      (get_message_history s.view conv.conversation_id default_history_limit).length < 2
  · rw [summarize_conversation_short hlen] at h
    cases h
  · cases hfmt : formatMessages
        (get_message_history s.view conv.conversation_id default_history_limit) with
    | error e2 => rw [summarize_conversation_fmt_error hlen hfmt]
    | ok l =>
      rw [summarize_conversation_long hlen hfmt] at h
      cases h

theorem applyModel_conversation_id (m : Option String) (c : Conversation) :
    (applyModel m c).conversation_id = c.conversation_id := by
  cases m with
  | none => rfl
  | some mm =>
    by_cases h : mm = ""
    · simp [applyModel, h]
    · simp [applyModel, h]

theorem applyModel_conversation_summary (m : Option String) (c : Conversation) :
    (applyModel m c).conversation_summary = c.conversation_summary := by
  cases m with
  | none => rfl
  | some mm =>
    by_cases h : mm = ""
    · simp [applyModel, h]
    · simp [applyModel, h]

theorem applyModel_token_usage (m : Option String) (c : Conversation) :
    (applyModel m c).token_usage = c.token_usage := by
  cases m with
  | none => rfl
  | some mm =>
    by_cases h : mm = ""
    · simp [applyModel, h]
    · simp [applyModel, h]

theorem applyUsage_conversation_id (u : Option Usage) (c : Conversation) :
    (applyUsage u c).conversation_id = c.conversation_id := by
  cases u <;> rfl

theorem applyUsage_conversation_summary (u : Option Usage) (c : Conversation) :
    (applyUsage u c).conversation_summary = c.conversation_summary := by
  cases u <;> rfl

theorem applyUsage_model (u : Option Usage) (c : Conversation) :
    (applyUsage u c).model = c.model := by
  cases u <;> rfl

theorem applyModel_model_of_ne {m : String} (c : Conversation) (h : m ≠ "") :
    (applyModel (some m) c).model = some m := by
  simp [applyModel, h]

theorem lookupConv_update_summary_other {db : DB} {cid x : Nat} {summary : String}
    {model : Option String} {usage : Option Usage} (hx : x ≠ cid) :
    lookupConv (update_conversation_summary db cid summary model usage) x =
      lookupConv db x := by
  unfold update_conversation_summary
  apply lookupConv_updateConv_other _ hx
  intro c
  rw [applyUsage_conversation_id, applyModel_conversation_id]

theorem summarize_conversation_ok_committed {f : List FMsg → String → String}
    {s : Session} {conv : Conversation}
    (h : (summarize_conversation f s conv).1 = .ok ()) :
    (summarize_conversation f s conv).2.committed = (summarize_conversation f s conv).2.view
    ∧ ∀ x, x ≠ conv.conversation_id →
        lookupConv (summarize_conversation f s conv).2.committed x =
          lookupConv s.view x := by
  by_cases hlen :
      (get_message_history s.view conv.conversation_id default_history_limit).length < 2
  · rw [summarize_conversation_short hlen]
    exact ⟨rfl, fun x hx => lookupConv_updateConv_other (fun _ => rfl) hx⟩
  · cases hfmt : formatMessages
        (get_message_history s.view conv.conversation_id default_history_limit) with
    | error e2 =>
      rw [summarize_conversation_fmt_error hlen hfmt] at h
      cases h
    | ok l =>
      rw [summarize_conversation_long hlen hfmt]
      exact ⟨rfl, fun x hx => lookupConv_update_summary_other hx⟩

theorem processConversations_counts (f : List FMsg → String → String) :
    ∀ (cs : List Conversation) (s : Session),
      (processConversations f s cs).2.1 + (processConversations f s cs).2.2 = cs.length := by
  intro cs
  induction cs with
  | nil => intro s; rfl
  | cons c rest ih =>
    intro s
    unfold processConversations
    split
    · rename_i heq
      rw [update_status_archived_eq] at heq
      cases heq
    · rename_i db2 heq
      split
      · rename_i a s2 heq2
        dsimp only
        rw [List.length_cons]
        have h2 := ih s2
        omega
      · rename_i a s2 heq2
        dsimp only
        rw [List.length_cons]
        have h2 := ih s2
        omega

theorem processConversations_preserves (f : List FMsg → String → String) (x : Nat) :
    ∀ (cs : List Conversation) (s : Session),
      s.view = s.committed →
      x ∉ cs.map (fun c => c.conversation_id) →
      lookupConv (processConversations f s cs).1.committed x = lookupConv s.committed x := by
  intro cs
  induction cs with
  | nil => intro s _ _; rfl
  | cons c rest ih =>
    intro s hview hx
    have hxc : x ≠ c.conversation_id := fun h =>
      hx (by rw [List.map_cons]; exact List.mem_cons.mpr (Or.inl h))
    have hxrest : x ∉ rest.map (fun c => c.conversation_id) := fun h =>
      hx (by rw [List.map_cons]; exact List.mem_cons.mpr (Or.inr h))
    unfold processConversations
    split
    · rename_i heq
      rw [update_status_archived_eq] at heq
      cases heq
    · rename_i db2 heq
      rw [update_status_archived_eq] at heq
      have hdb2 : db2 = updateConv s.view c.conversation_id
          (fun c => { c with status := "archived" }) := by
        cases heq
        rfl
      split
      · rename_i a s2 heq2
        cases a
        have hok := @summarize_conversation_ok_committed f
          ⟨s.committed, db2⟩ c (by rw [heq2])
        rw [heq2] at hok
        have hv : s2.view = s2.committed := hok.1.symm
        have hl : lookupConv s2.committed x = lookupConv db2 x := hok.2 x hxc
        dsimp only
        rw [ih s2 hv hxrest, hl, hdb2,
          @lookupConv_updateConv_other s.view c.conversation_id x
            (fun c => { c with status := "archived" }) (fun _ => rfl) hxc, hview]
      · rename_i e s2 heq2
        have h2 : s2 = ⟨s.committed, s.committed⟩ := by
          have h3 := @summarize_conversation_error_rollback f
            ⟨s.committed, db2⟩ c e (by rw [heq2])
          rw [heq2] at h3
          exact h3
        dsimp only
        rw [ih s2 (by rw [h2]) hxrest, h2]

/-! Concrete database fixtures used by counterexamples and witnesses. -/

/-- User 7 owns exactly one conversation and it has no summary. -/
def fxConvUnsummarized : Conversation :=
  ⟨1, 7, none, none, none, .null, "in-progress", some 0, 0, false⟩

def fxDbUnsummarized : DB := ⟨[fxConvUnsummarized], []⟩

/-- Archived conversation of user 1, already summarized. -/
def fxConvArchived : Conversation :=
  ⟨1, 1, none, some "old summary", some "gemini-2.5-pro", .null, "archived", some 10, 0, false⟩

def fxDbArchived : DB := ⟨[fxConvArchived], []⟩

/-- Conversation whose stored usage record is the all-zero dict. -/
def fxConvZeroUsage : Conversation :=
  ⟨1, 1, none, none, none, .record zeroUsageDict, "active", some 0, 0, false⟩

def fxDbZeroUsage : DB := ⟨[fxConvZeroUsage], []⟩

/-- Conversation 1 with 21 stored messages. -/
def fxDb21 : DB :=
  ⟨[⟨1, 1, none, none, none, .null, "in-progress", some 0, 0, false⟩],
   (List.range 21).map (fun i => ⟨1, 1, "user", .obj (some "m"), (i : Int)⟩)⟩

/-- User 4 has a single stored message, an assistant greeting 5 minutes ago,
and no message with role user at all. -/
def fxDbAssistantOnly : DB :=
  ⟨[⟨1, 4, none, none, none, .null, "active", some 95, 90, false⟩],
   [⟨1, 4, "assistant", .obj (some "greeting"), 95⟩]⟩

/-- Unsummarized active conversation of user 4, used with varying message
tables below. -/
def fxConvShort : Conversation :=
  ⟨2, 4, none, none, none, .null, "active", some 50, 40, false⟩

def fxDbOneMsg : DB := ⟨[fxConvShort], [⟨2, 4, "assistant", .obj (some "hi"), 50⟩]⟩

def fxDbTwoMsg : DB :=
  ⟨[fxConvShort],
   [⟨2, 4, "assistant", .obj (some "hi"), 50⟩, ⟨2, 4, "user", .obj (some "hello"), 51⟩]⟩

/-- Two messages, the second with a non-dict content payload. -/
def fxDbBadContent : DB :=
  ⟨[fxConvShort],
   [⟨2, 4, "assistant", .obj (some "hi"), 50⟩, ⟨2, 4, "user", .str "raw", 51⟩]⟩

/-- Already summarized conversation B, committed before the failing tick. -/
def fxConvB : Conversation :=
  ⟨9, 4, none, some "B sum", some "gemini-2.5-pro", .record zeroUsageDict,
   "archived", some 45, 30, false⟩

/-- Conversation A (id 2, bad content) together with the committed B. -/
def fxDbAB : DB :=
  ⟨[fxConvShort, fxConvB],
   [⟨2, 4, "assistant", .obj (some "hi"), 50⟩, ⟨2, 4, "user", .str "raw", 51⟩]⟩

/-- Concrete opaque summarizer text function. -/
def fxSummarizer : List FMsg → String → String := fun _ _ => "SUM"

/-! Claim theorems. -/

/-- C1 (counterexample evaluation). The cumulative context builder does not
restrict to conversations with a non-null summary: for user 7, whose only
conversation has a null summary, the source returns a rendered context block
listing that conversation with the literal text None instead of the
no-prior-history sentinel. The second where-clause of the query (crud.py
line 433) is the Python expression column is not None, a constant-true
filter, rather than the SQLAlchemy isnot(None) used correctly elsewhere in
the same file (line 334). -/
theorem C1_unsummarized_conversation_breaks_sentinel :
    get_cumulative_summary_context fxDbUnsummarized 7 =
      "User has had 1 previous conversations. Here\x27s the cumulative memory:\n\nConversation 1 (from 0): None\n\nThis is conversation #2 for this user. Use the above context to provide personalized, continuous care."
    ∧ get_cumulative_summary_context fxDbUnsummarized 7 ≠ noHistorySentinel
    ∧ fxConvUnsummarized.conversation_summary = none
    ∧ fxDbUnsummarized.conversations = [fxConvUnsummarized] := by
  refine ⟨rfl, ?_, rfl, rfl⟩
  decide

/-- C2 (counterexample evaluation). The chat endpoint sets the conversation
status to in-progress unconditionally (main.py line 504): a user message
addressed to an archived conversation succeeds and transitions the
conversation from archived back to in-progress, so archived is not terminal
on the request path. -/
theorem C2_chat_reopens_archived_conversation :
    fxConvArchived.status = "archived"
    ∧ (chat "reply" fxDbArchived 1 (some 1) "hello again" 100).toOption.map
        (fun db => (lookupConv db 1).map (fun c => c.status)) =
      some (some "in-progress") := ⟨rfl, rfl⟩

/-- C3. Membership in the archival-eligibility query: a conversation is
returned by get_conversations_to_archive exactly when it is stored, its
status is active or in-progress, its last_message_at is non-null and
strictly older than now minus 15 minutes, and its summary is null. -/
theorem C3_archival_eligibility (db : DB) (now : Int) (c : Conversation) :
    c ∈ get_conversations_to_archive db now ↔
      c ∈ db.conversations
      ∧ (c.status = "active" ∨ c.status = "in-progress")
      ∧ (∃ t, c.last_message_at = some t ∧ t < now - 15)
      ∧ c.conversation_summary = none := by
  unfold get_conversations_to_archive
  rw [List.mem_filter]
  cases hl : c.last_message_at with
  | none =>
    simp [hl]
  | some t =>
    simp [hl, and_assoc]

/-- C4. Short-circuit of the summarization pipeline: on a conversation whose
stored history holds fewer than 2 messages, summarize_conversation returns
successfully, commits the status archived, leaves a null summary null, and
its result does not depend on the generation function at all (the summarizer
is never invoked). -/
theorem C4_short_circuit_archives_without_generation
    (f g : List FMsg → String → String) (s : Session) (conv : Conversation)
    (c0 : Conversation)
    (hmem : lookupConv s.view conv.conversation_id = some c0)
    (hsum : c0.conversation_summary = none)
    (hlen : (get_message_history s.view conv.conversation_id default_history_limit).length < 2) :
    summarize_conversation g s conv = summarize_conversation f s conv
    ∧ (summarize_conversation f s conv).1 = .ok ()
    ∧ ∃ c1, lookupConv (summarize_conversation f s conv).2.committed conv.conversation_id
          = some c1
        ∧ c1.status = "archived"
        ∧ c1.conversation_summary = none := by
  rw [@summarize_conversation_short f s conv hlen, @summarize_conversation_short g s conv hlen]
  refine ⟨rfl, rfl, ?_⟩
  have h1 := @lookupConv_updateConv_self s.view conv.conversation_id
    (fun c => { c with status := "archived" }) (fun _ => rfl)
  rw [hmem] at h1
  exact ⟨_, h1, rfl, hsum⟩

/-- C4 witness: a conversation with a single stored message is archived and
kept summary-free without consulting the generation function. -/
theorem C4_short_circuit_witness :
    (summarize_conversation fxSummarizer ⟨fxDbOneMsg, fxDbOneMsg⟩ fxConvShort).1 = .ok ()
    ∧ ∃ c1, lookupConv
          (summarize_conversation fxSummarizer ⟨fxDbOneMsg, fxDbOneMsg⟩ fxConvShort).2.committed
          fxConvShort.conversation_id = some c1
        ∧ c1.status = "archived"
        ∧ c1.conversation_summary = none :=
  (C4_short_circuit_archives_without_generation fxSummarizer fxSummarizer
    ⟨fxDbOneMsg, fxDbOneMsg⟩ fxConvShort fxConvShort rfl rfl (by decide)).2

/-- C6 (counterexample). Negative deltas are not clamped to zero: starting
from the all-zero stored record, a delta of -5 prompt tokens is written back
as -5, so the stored counters can go negative, contradicting the claimed
clamping. -/
theorem C6_negative_delta_not_clamped :
    (lookupConv (increment_conversation_token_usage fxDbZeroUsage 1
        ⟨some (-5), some 0, some 0⟩ none) 1).map (fun c => c.token_usage) =
      some (.record ⟨some (-5), some 0, some 0⟩)
    ∧ (-5 : Int) < 0 := by
  refine ⟨rfl, ?_⟩
  decide

theorem lookupConv_increment_self {db : DB} {cid : Nat} {d : UsageDict}
    {m : Option String} {c0 : Conversation}
    (h0 : lookupConv db cid = some c0) :
    ∃ c1, lookupConv (increment_conversation_token_usage db cid d m) cid = some c1
      ∧ c1.token_usage = .record (usageToDict (addUsage c0.token_usage d)) := by
  unfold increment_conversation_token_usage
  have hg : ∀ c : Conversation,
      ((fun c => applyModel m
        { c with token_usage :=
            TokenUsageVal.record (usageToDict (addUsage (currentUsage db cid) d)) }) c).conversation_id
        = c.conversation_id := by
    intro c
    rw [applyModel_conversation_id]
  rw [@lookupConv_updateConv_self db cid _ hg, h0]
  have hcur : currentUsage db cid = c0.token_usage := by
    unfold currentUsage
    rw [h0]
  refine ⟨_, rfl, ?_⟩
  rw [applyModel_token_usage, hcur]

/-- C6 (amended). Two increments starting from the all-zero stored record
accumulate the deltas field-wise exactly, with missing or null delta fields
contributing zero but negative values added as-is rather than clamped; a
stored value that is SQL NULL or not a dict is treated as the all-zero
record; the operation is a total function, so it never throws on
partially-missing data. -/
theorem C6_usage_accumulates_without_clamping (db : DB) (cid : Nat)
    (d1 d2 : UsageDict) (m1 m2 : Option String) (c0 : Conversation)
    (h0 : lookupConv db cid = some c0)
    (hz : c0.token_usage = .record zeroUsageDict) :
    (∃ c2, lookupConv (increment_conversation_token_usage
          (increment_conversation_token_usage db cid d1 m1) cid d2 m2) cid = some c2
        ∧ c2.token_usage = .record
            ⟨some (pyOr0 d1.prompt_tokens + pyOr0 d2.prompt_tokens),
             some (pyOr0 d1.completion_tokens + pyOr0 d2.completion_tokens),
             some (pyOr0 d1.total_tokens + pyOr0 d2.total_tokens)⟩)
    ∧ (∀ d : UsageDict, addUsage .null d = addUsage (.record zeroUsageDict) d
        ∧ addUsage .notDict d = addUsage (.record zeroUsageDict) d) := by
  constructor
  · obtain ⟨c1, h1, ht1⟩ := lookupConv_increment_self h0
    obtain ⟨c2, h2, ht2⟩ := lookupConv_increment_self h1
    refine ⟨c2, h2, ?_⟩
    rw [ht2, ht1, hz]
    simp [addUsage, usageToDict, zeroUsageDict, pyOr0]
  · intro d
    exact ⟨rfl, rfl⟩

/-- C6 witness: deltas (3,4,7) then (10,missing,10) on a zero record yield
exactly (13,4,17). -/
theorem C6_usage_accumulation_witness :
    ∃ c2, lookupConv (increment_conversation_token_usage
          (increment_conversation_token_usage fxDbZeroUsage 1
            ⟨some 3, some 4, some 7⟩ (some "gemini-2.5-pro")) 1
          ⟨some 10, none, some 10⟩ none) 1 = some c2
      ∧ c2.token_usage = .record ⟨some 13, some 4, some 17⟩ := by
  obtain ⟨⟨c2, h1, h2⟩, _⟩ := C6_usage_accumulates_without_clamping fxDbZeroUsage 1
    ⟨some 3, some 4, some 7⟩ ⟨some 10, none, some 10⟩ (some "gemini-2.5-pro") none
    fxConvZeroUsage rfl rfl
  exact ⟨c2, h1, h2⟩

/-- C5. Per-conversation isolation of one scheduler tick: a conversation
whose summarization raises contributes exactly one failure count, its
pending archive and partial work are rolled back so the durable state it
sees is exactly the state from before its attempt, and the loop continues
with the remaining conversations from that unchanged durable state; the
success and failure counts always add up to the batch size; and any
conversation outside the batch (such as one whose summary was committed
earlier) keeps its committed record untouched through the whole loop. -/
theorem C5_tick_failure_isolation (f : List FMsg → String → String) :
    (∀ (s : Session) (conv : Conversation) (rest : List Conversation) (e : String),
       (summarize_conversation f
          ⟨s.committed, updateConv s.view conv.conversation_id
            (fun c => { c with status := "archived" })⟩ conv).1 = .error e →
       processConversations f s (conv :: rest) =
         ((processConversations f ⟨s.committed, s.committed⟩ rest).1,
          (processConversations f ⟨s.committed, s.committed⟩ rest).2.1,
          (processConversations f ⟨s.committed, s.committed⟩ rest).2.2 + 1))
    ∧ (∀ (s : Session) (cs : List Conversation),
        (processConversations f s cs).2.1 + (processConversations f s cs).2.2 = cs.length)
    ∧ (∀ (s : Session) (cs : List Conversation) (x : Nat),
        s.view = s.committed → x ∉ cs.map (fun c => c.conversation_id) →
        lookupConv (processConversations f s cs).1.committed x = lookupConv s.committed x) := by
  refine ⟨?_, fun s cs => processConversations_counts f cs s,
    fun s cs x h1 h2 => processConversations_preserves f x cs s h1 h2⟩
  intro s conv rest e herr
  rw [processConversations]
  split
  · rename_i heq
    rw [update_status_archived_eq] at heq
    cases heq
  · rename_i db2 heq
    rw [update_status_archived_eq] at heq
    have hdb2 : db2 = updateConv s.view conv.conversation_id
        (fun c => { c with status := "archived" }) := by
      cases heq
      rfl
    split
    · rename_i a s2 heq2
      rw [hdb2] at heq2
      rw [heq2] at herr
      cases herr
    · rename_i e2 s2 heq2
      rw [hdb2] at heq2
      have h3 := @summarize_conversation_error_rollback f
        ⟨s.committed, updateConv s.view conv.conversation_id
          (fun c => { c with status := "archived" })⟩ conv e2 (by rw [heq2])
      rw [heq2] at h3
      have h4 : s2 = ⟨s.committed, s.committed⟩ := h3
      rw [h4]

/-- C5 witness: in a tick whose batch is the single bad-content conversation
A (id 2), A fails, counts are 0 successes and 1 failure, the durable state is
unchanged, and the previously committed summary of conversation B (id 9)
survives. -/
theorem C5_tick_failure_isolation_witness :
    processConversations fxSummarizer ⟨fxDbAB, fxDbAB⟩ [fxConvShort] =
      (⟨fxDbAB, fxDbAB⟩, 0, 1)
    ∧ (processConversations fxSummarizer ⟨fxDbAB, fxDbAB⟩ [fxConvShort]).2.1
        + (processConversations fxSummarizer ⟨fxDbAB, fxDbAB⟩ [fxConvShort]).2.2 = 1
    ∧ lookupConv (processConversations fxSummarizer
        ⟨fxDbAB, fxDbAB⟩ [fxConvShort]).1.committed 9 = some fxConvB := by
  have h := C5_tick_failure_isolation fxSummarizer
  refine ⟨?_, h.2.1 ⟨fxDbAB, fxDbAB⟩ [fxConvShort], ?_⟩
  · have h1 := h.1 ⟨fxDbAB, fxDbAB⟩ fxConvShort []
      "AttributeError: content has no attribute get" (by rfl)
    exact h1.trans (by rfl)
  · have h3 := h.2.2 ⟨fxDbAB, fxDbAB⟩ [fxConvShort] 9 rfl (by decide)
    exact h3.trans (by rfl)

/-- C7 (counterexample). The transcript fetch is capped: get_message_history
is called with its default limit of 20, so a conversation holding 21
messages yields a 20-element history, not the full one. -/
theorem C7_history_capped_at_20 :
    (get_message_history fxDb21 1 default_history_limit).length = 20
    ∧ (fxDb21.messages.filter (fun m => m.conversation_id == 1)).length = 21 := by
  exact ⟨by decide, by decide⟩

/-- C7 (amended). The history handed to the summarizer is the conversation
messages sorted oldest-first by creation time, truncated to the first 20;
it is sorted, drawn from the conversation, at most 20 long, and is the whole
history exactly when the conversation has at most 20 messages; the pipeline
passes precisely that formatted list, in order, to the generation call. -/
theorem C7_history_ordered_and_capped (db : DB) (cid : Nat) :
    List.Sorted msgLE (get_message_history db cid default_history_limit)
    ∧ (∀ m ∈ get_message_history db cid default_history_limit,
         m.conversation_id = cid ∧ m ∈ db.messages)
    ∧ (get_message_history db cid default_history_limit).length ≤ default_history_limit
    ∧ ((db.messages.filter (fun m => m.conversation_id == cid)).length ≤ default_history_limit →
        List.Perm (get_message_history db cid default_history_limit)
          (db.messages.filter (fun m => m.conversation_id == cid)))
    ∧ (∀ (f : List FMsg → String → String) (s : Session) (conv : Conversation)
          (l : List FMsg),
        ¬ (get_message_history s.view conv.conversation_id default_history_limit).length < 2 →
        formatMessages
            (get_message_history s.view conv.conversation_id default_history_limit) = .ok l →
        summarize_conversation f s conv =
          (.ok (),
            ⟨update_conversation_summary s.view conv.conversation_id
               (f l (get_cumulative_summary_context s.view conv.user_id))
               (some modelName) (some zeroUsage),
             update_conversation_summary s.view conv.conversation_id
               (f l (get_cumulative_summary_context s.view conv.user_id))
               (some modelName) (some zeroUsage)⟩)) := by
  refine ⟨?_, ?_, ?_, ?_, ?_⟩
  · exact List.Pairwise.sublist (List.take_sublist _ _)
      (List.sorted_insertionSort msgLE _)
  · intro m hm
    have h1 : m ∈ (db.messages.filter
        (fun m => m.conversation_id == cid)).insertionSort msgLE :=
      List.mem_of_mem_take hm
    rw [List.mem_insertionSort] at h1
    have h2 := List.mem_filter.mp h1
    exact ⟨by simpa using h2.2, h2.1⟩
  · exact List.length_take_le _ _
  · intro hle
    unfold get_message_history
    rw [List.take_of_length_le (by rw [List.length_insertionSort]; exact hle)]
    exact List.perm_insertionSort msgLE _
  · intro f s conv l hlen hfmt
    exact summarize_conversation_long hlen hfmt

/-- C7 witness: with exactly two stored messages the capped history is the
full history, and the pipeline passes the two formatted messages in
creation-time order to the generation call. -/
theorem C7_history_witness :
    List.Perm (get_message_history fxDbTwoMsg 2 default_history_limit)
      (fxDbTwoMsg.messages.filter (fun m => m.conversation_id == 2))
    ∧ summarize_conversation fxSummarizer ⟨fxDbTwoMsg, fxDbTwoMsg⟩ fxConvShort =
      (.ok (),
        ⟨update_conversation_summary fxDbTwoMsg 2
           (fxSummarizer [⟨"assistant", "hi"⟩, ⟨"user", "hello"⟩]
             (get_cumulative_summary_context fxDbTwoMsg 4))
           (some modelName) (some zeroUsage),
         update_conversation_summary fxDbTwoMsg 2
           (fxSummarizer [⟨"assistant", "hi"⟩, ⟨"user", "hello"⟩]
             (get_cumulative_summary_context fxDbTwoMsg 4))
           (some modelName) (some zeroUsage)⟩) := by
  have h := C7_history_ordered_and_capped fxDbTwoMsg 2
  exact ⟨h.2.2.2.1 (by decide),
    h.2.2.2.2 fxSummarizer ⟨fxDbTwoMsg, fxDbTwoMsg⟩ fxConvShort
      [⟨"assistant", "hi"⟩, ⟨"user", "hello"⟩] (by decide) rfl⟩

/-- C8. After a successful summarization of a conversation with at least two
extractable messages, the committed conversation record carries the returned
summary text, the backend model name, and the zero usage counters reported
by the generation call, stored as an explicit all-zero record, never as SQL
NULL. -/
theorem C8_summary_model_usage_persisted (f : List FMsg → String → String)
    (s : Session) (conv c0 : Conversation) (l : List FMsg)
    (hmem : lookupConv s.view conv.conversation_id = some c0)
    (hlen : ¬ (get_message_history s.view conv.conversation_id default_history_limit).length < 2)
    (hfmt : formatMessages
      (get_message_history s.view conv.conversation_id default_history_limit) = .ok l) :
    (summarize_conversation f s conv).1 = .ok ()
    ∧ ∃ c1, lookupConv (summarize_conversation f s conv).2.committed conv.conversation_id
          = some c1
        ∧ c1.conversation_summary =
            some (f l (get_cumulative_summary_context s.view conv.user_id))
        ∧ c1.model = some modelName
        ∧ c1.token_usage = .record ⟨some 0, some 0, some 0⟩
        ∧ c1.token_usage ≠ .null := by
  rw [summarize_conversation_long hlen hfmt]
  refine ⟨rfl, ?_⟩
  unfold update_conversation_summary
  have hg : ∀ c : Conversation,
      (applyUsage (some zeroUsage) (applyModel (some modelName)
        { c with
          conversation_summary := some (f l (get_cumulative_summary_context s.view conv.user_id)) })).conversation_id
        = c.conversation_id := by
    intro c
    rw [applyUsage_conversation_id, applyModel_conversation_id]
  have h1 := @lookupConv_updateConv_self s.view conv.conversation_id
    (fun c => applyUsage (some zeroUsage) (applyModel (some modelName)
      { c with
        conversation_summary := some (f l (get_cumulative_summary_context s.view conv.user_id)) })) hg
  rw [hmem] at h1
  refine ⟨_, h1, ?_, ?_, ?_, ?_⟩
  · rw [applyUsage_conversation_summary, applyModel_conversation_summary]
  · rw [applyUsage_model, applyModel_model_of_ne]
    decide
  · rfl
  · intro hnull
    exact TokenUsageVal.noConfusion hnull

/-- C8 witness: the two-message conversation ends up with summary SUM, the
configured model name, and an explicit zero usage record. -/
theorem C8_summary_persisted_witness :
    (summarize_conversation fxSummarizer ⟨fxDbTwoMsg, fxDbTwoMsg⟩ fxConvShort).1 = .ok ()
    ∧ ∃ c1, lookupConv (summarize_conversation fxSummarizer
          ⟨fxDbTwoMsg, fxDbTwoMsg⟩ fxConvShort).2.committed
          fxConvShort.conversation_id = some c1
        ∧ c1.conversation_summary =
            some (fxSummarizer [⟨"assistant", "hi"⟩, ⟨"user", "hello"⟩]
              (get_cumulative_summary_context fxDbTwoMsg 4))
        ∧ c1.model = some modelName
        ∧ c1.token_usage = .record ⟨some 0, some 0, some 0⟩
        ∧ c1.token_usage ≠ .null :=
  C8_summary_model_usage_persisted fxSummarizer ⟨fxDbTwoMsg, fxDbTwoMsg⟩
    fxConvShort fxConvShort [⟨"assistant", "hi"⟩, ⟨"user", "hello"⟩]
    rfl (by decide) rfl

/-- C9 (counterexample). The inactivity query takes the last-activity time
from every message of the user, not only those with role user: user 4 has no
message with role user at all, which the claim declares inactive, yet a lone
assistant greeting 5 minutes ago makes the code report the user active. -/
theorem C9_inactivity_counts_assistant_messages :
    (get_user_inactivity_status fxDbAssistantOnly 4 100).is_inactive = false
    ∧ fxDbAssistantOnly.messages.filter (fun m => m.role == "user") = []
    ∧ fxDbAssistantOnly.messages.filter (fun m => m.user_id == 4) ≠ [] := by
  refine ⟨rfl, rfl, ?_⟩
  decide

/-- C9 (amended). The per-user inactivity query is a pure read-only function
reporting the user inactive exactly when no message of that user of any role
(not only role user, which the source does not filter by) lies within the
trailing 15-minute window, vacuously so when the user has no messages at
all; the reported duration is null exactly when the user has no messages,
otherwise now minus the latest message time; and the query counts the users
conversations in active or in-progress status. -/
theorem C9_inactivity_reflects_any_role (db : DB) (uid : Nat) (now : Int) :
    ((get_user_inactivity_status db uid now).is_inactive = true ↔
       ∀ m ∈ db.messages, m.user_id = uid → m.created_at < now - 15)
    ∧ ((get_user_inactivity_status db uid now).inactivity_duration = none ↔
       ∀ m ∈ db.messages, m.user_id ≠ uid)
    ∧ (∀ t, (get_user_inactivity_status db uid now).last_time = some t →
        (get_user_inactivity_status db uid now).inactivity_duration = some (now - t))
    ∧ (get_user_inactivity_status db uid now).active_conversations =
        db.conversations.countP (fun c =>
          c.user_id == uid && (c.status == "active" || c.status == "in-progress")) := by
  refine ⟨?_, ?_, ?_, (List.countP_eq_length_filter _ _).symm⟩
  · show (match last_message_time db uid with
      | none => true
      | some t => decide (t < now - 15)) = true ↔ _
    cases hmax : last_message_time db uid with
    | none =>
      have hnil : db.messages.filter (fun m => m.user_id == uid) = [] :=
        List.map_eq_nil_iff.mp (List.max?_eq_none_iff.mp hmax)
      simp only []
      constructor
      · intro _ m hm hu
        exfalso
        have hmem : m ∈ db.messages.filter (fun m => m.user_id == uid) :=
          List.mem_filter.mpr ⟨hm, by simpa using hu⟩
        rw [hnil] at hmem
        cases hmem
      · intro _
        trivial
    | some t =>
      simp only [decide_eq_true_eq]
      have hmax2 : ((db.messages.filter (fun m => m.user_id == uid)).map
          (fun m => m.created_at)).max? = some t := hmax
      constructor
      · intro hlt m hm hu
        have hb : m.created_at ∈ (db.messages.filter (fun m => m.user_id == uid)).map
            (fun m => m.created_at) :=
          List.mem_map.mpr ⟨m, List.mem_filter.mpr ⟨hm, by simpa using hu⟩, rfl⟩
        have hle := (List.max?_le_iff (fun a b c => max_le_iff) hmax2).mp le_rfl
          m.created_at hb
        omega
      · intro hall
        obtain ⟨m, hmem2, hmt⟩ := List.mem_map.mp
          (List.max?_mem max_choice hmax2)
        have h5 := List.mem_filter.mp hmem2
        have h6 := hall m h5.1 (by simpa using h5.2)
        omega
  · show (last_message_time db uid).map (fun t => now - t) = none ↔ _
    rw [Option.map_eq_none', last_message_time, List.max?_eq_none_iff,
      List.map_eq_nil_iff, List.filter_eq_nil_iff]
    constructor
    · intro h m hm hu
      exact h m hm (by simpa using hu)
    · intro h m hm
      simpa using h m hm
  · intro t ht
    have ht2 : last_message_time db uid = some t := ht
    show (last_message_time db uid).map (fun t => now - t) = some (now - t)
    rw [ht2]
    rfl

/-- C9 witness: for the assistant-only fixture the latest activity is at
minute 95, so the reported inactivity duration at minute 100 is 5 minutes. -/
theorem C9_inactivity_duration_witness :
    (get_user_inactivity_status fxDbAssistantOnly 4 100).inactivity_duration = some 5 :=
  (C9_inactivity_reflects_any_role fxDbAssistantOnly 4 100).2.2.1 95 rfl

theorem messages_save (db : DB) (cid uid : Nat) (role : String) (content : Content)
    (now : Int) : (save_message db cid uid role content now).messages
      = db.messages ++ [⟨cid, uid, role, content, now⟩] := rfl

theorem messages_timestamp (db : DB) (cid : Nat) (now : Int) :
    (update_conversation_timestamp db cid now).messages = db.messages := rfl

theorem messages_increment (db : DB) (cid : Nat) (d : UsageDict) (m : Option String) :
    (increment_conversation_token_usage db cid d m).messages = db.messages := rfl

theorem messages_create (db : DB) (uid : Nat) (title : Option String)
    (ncid : Nat) (now : Int) :
    (create_conversation db uid title ncid now).1.messages = db.messages := rfl

/-- C10. Text-payload discipline of the request path: both endpoints only
ever store message contents of the form text-dict, so the invariant that
every stored content is a dict carrying a text entry is preserved by
start_conversation and chat; under that invariant the content extraction of
the pipeline never raises; and a conversation whose capped history contains
a non-dict content makes summarize_conversation raise, which one scheduler
tick counts as exactly that conversation failure while the durable state is
rolled back. -/
theorem C10_request_path_text_payloads
    (reply greeting : String) (db : DB) (uid cid : Nat) (ocid : Option Nat)
    (msg : String) (now : Int) (f : List FMsg → String → String)
    (s : Session) (conv : Conversation) :
    (WellFormedMessages db → ∀ db2, start_conversation greeting db uid cid now = .ok db2 →
       WellFormedMessages db2)
    ∧ (WellFormedMessages db → ∀ db2, chat reply db uid ocid msg now = .ok db2 →
       WellFormedMessages db2)
    ∧ (WellFormedMessages db → ∀ c n, ∃ l, formatMessages (get_message_history db c n) = .ok l)
    ∧ ((∃ m ∈ get_message_history s.view conv.conversation_id default_history_limit,
          ∃ str, m.content = Content.str str) →
       ¬ (get_message_history s.view conv.conversation_id default_history_limit).length < 2 →
       (∃ e, (summarize_conversation f s conv).1 = .error e)
       ∧ processConversations f s [conv] = (⟨s.committed, s.committed⟩, 0, 1)) := by
  refine ⟨?_, ?_, ?_, ?_⟩
  · intro hwf db2 heq
    unfold start_conversation at heq
    rw [update_status_active_eq] at heq
    dsimp only at heq
    cases heq
    intro m hm
    rw [messages_increment, messages_timestamp, messages_save, messages_updateConv,
      messages_create] at hm
    rcases List.mem_append.mp hm with h | h
    · exact hwf m h
    · rw [List.mem_singleton] at h
      subst h
      exact ⟨greeting, rfl⟩
  · intro hwf db2 heq
    cases ocid with
    | none =>
      unfold chat at heq
      cases heq
    | some cid2 =>
      unfold chat at heq
      dsimp only at heq
      cases hconv : get_conversation db cid2 uid with
      | none =>
        rw [hconv] at heq
        cases heq
      | some cfound =>
        rw [hconv] at heq
        cases hfmtc : formatMessages (get_message_history db cid2 default_history_limit) with
        | error e =>
          rw [hfmtc] at heq
          cases heq
        | ok l =>
          rw [hfmtc] at heq
          dsimp only [core_chat_agent] at heq
          rw [update_status_in_progress_eq] at heq
          dsimp only at heq
          cases heq
          intro m hm
          rw [messages_increment, messages_updateConv, messages_timestamp,
            messages_save, messages_save] at hm
          rcases List.mem_append.mp hm with h | h
          · rcases List.mem_append.mp h with h2 | h2
            · exact hwf m h2
            · rw [List.mem_singleton] at h2
              subst h2
              exact ⟨msg, rfl⟩
          · rw [List.mem_singleton] at h
            subst h
            exact ⟨reply, rfl⟩
  · intro hwf c n
    apply formatMessages_ok_of_forall
    intro m hm
    apply hwf
    have h1 : m ∈ (db.messages.filter
        (fun m2 => m2.conversation_id == c)).insertionSort msgLE :=
      List.mem_of_mem_take hm
    rw [List.mem_insertionSort] at h1
    exact (List.mem_filter.mp h1).1
  · intro hbad hlen
    obtain ⟨m, hm, str, hc⟩ := hbad
    obtain ⟨e, he⟩ := formatMessages_error_of_mem hm hc
    refine ⟨⟨e, by rw [summarize_conversation_fmt_error hlen he]⟩, ?_⟩
    rw [processConversations]
    split
    · rename_i heq
      rw [update_status_archived_eq] at heq
      cases heq
    · rename_i db2 heq
      rw [update_status_archived_eq] at heq
      have hdb2 : db2 = updateConv s.view conv.conversation_id
          (fun c => { c with status := "archived" }) := by
        cases heq
        rfl
      have hhist : get_message_history db2 conv.conversation_id default_history_limit
          = get_message_history s.view conv.conversation_id default_history_limit := by
        rw [hdb2]
        rfl
      have hlen2 : ¬ ((get_message_history
          (Session.mk s.committed db2).view conv.conversation_id
            default_history_limit).length < 2) := by
        show ¬ ((get_message_history db2 conv.conversation_id
          default_history_limit).length < 2)
        rw [hhist]
        exact hlen
      have hfmt2 : formatMessages (get_message_history
          (Session.mk s.committed db2).view conv.conversation_id
            default_history_limit) = .error e := by
        show formatMessages (get_message_history db2 conv.conversation_id
          default_history_limit) = .error e
        rw [hhist]
        exact he
      have hserr := @summarize_conversation_fmt_error f ⟨s.committed, db2⟩ conv e
        hlen2 hfmt2
      split
      · rename_i a s2 heq2
        rw [hserr] at heq2
        cases heq2
      · rename_i e2 s2 heq2
        rw [hserr] at heq2
        cases heq2
        rfl

/-- C10 witness: the two dict-payload messages format without raising, and
the tick over the bad-content conversation counts one failure and leaves the
durable state unchanged. -/
theorem C10_request_path_text_payloads_witness :
    (∃ l, formatMessages (get_message_history fxDbTwoMsg 2 default_history_limit) = .ok l)
    ∧ processConversations fxSummarizer ⟨fxDbBadContent, fxDbBadContent⟩ [fxConvShort] =
        (⟨fxDbBadContent, fxDbBadContent⟩, 0, 1) := by
  have h := C10_request_path_text_payloads "r" "g" fxDbTwoMsg 4 3 (some 2) "m" 60
    fxSummarizer ⟨fxDbBadContent, fxDbBadContent⟩ fxConvShort
  refine ⟨h.2.2.1 ?_ 2 default_history_limit, (h.2.2.2 ?_ (by decide)).2⟩
  · intro m hm
    have hm2 : m ∈ [(⟨2, 4, "assistant", .obj (some "hi"), 50⟩ : Message),
        ⟨2, 4, "user", .obj (some "hello"), 51⟩] := hm
    rcases List.mem_cons.mp hm2 with h1 | h1
    · subst h1
      exact ⟨"hi", rfl⟩
    · rw [List.mem_singleton] at h1
      subst h1
      exact ⟨"hello", rfl⟩
  · exact ⟨⟨2, 4, "user", .str "raw", 51⟩, by decide, "raw", rfl⟩

end Chatbot
